import Mathlib

/-!
Verification development for the FinQuery NL→pandas repository.

The embedding models, from the source:
  * `app_web.load_and_transform`  — CSV normalization (orientation detection,
    empty-column pruning, transpose, numeric coercion);
  * `finquery_engine.FinQueryEngine.__init__` — the CLI engine's own loader;
  * `FinQueryEngine._find_col` and `FinQueryEngine.query` — keyword ladder.

Cells are modelled by `Val` (a string, a rational number standing for a
finite pandas float, a signed infinity, or `null` standing for NaN); a pandas
DataFrame is modelled column-major by `Frame`.  Python exceptions are
modelled by `Except PyError`.  All functions are executable; finite floats
are modelled by `ℚ`, which is exact on every value the claims exercise, and
the division-by-zero cases of `pct_change` are carried by the explicit
infinity/NaN cells.
-/

namespace FinQuery

/-- A pandas cell: a string, a finite float (modelled exactly as a rational),
a signed float infinity (`pos = true` for `+inf`), or NaN.  `null` stands for
NaN, which in a float column doubles as the missing-value marker. -/
inductive Val where
  | str (s : String)
  | num (q : ℚ)
  | inf (pos : Bool)
  | null
deriving DecidableEq

/-- The Python exceptions the modelled code can raise. -/
inductive PyError where
  | load
  | key
  | index
  | attribute
  | value
deriving DecidableEq

/-- A DataFrame, column-major: an ordered list of (column name, cell list). -/
structure Frame where
  cols : List (String × List Val)
deriving DecidableEq

/-- `df.columns` as a list of names, in declaration order. -/
def headersOf (f : Frame) : List String := f.cols.map Prod.fst

/-- `df[name]`: the cell list of the first column with that name ([] if absent). -/
def getColVals (f : Frame) (n : String) : List Val :=
  match f.cols.find? (fun c => c.1 = n) with
  | some c => c.2
  | none => []

/-- ASCII lowercasing of one character, as Python `str.lower` does on ASCII. -/
def lowerChar (c : Char) : Char :=
  if 65 ≤ c.toNat ∧ c.toNat ≤ 90 then Char.ofNat (c.toNat + 32) else c

/-- Python `s.lower()` (modelled for ASCII text). -/
def lowerStr (s : String) : String := ⟨s.data.map lowerChar⟩

/-- Contiguous-sublist test on character lists (Python `needle in haystack`). -/
def listSub (n : List Char) : List Char → Bool
  | [] => n.isEmpty
  | c :: t => n.isPrefixOf (c :: t) || listSub n t

/-- Python substring containment `needle in hay`. -/
def substrB (needle hay : String) : Bool := listSub needle.data hay.data

/-- Replace every occurrence of the single character `a` by `r` (delete if none);
Python `str.replace` specialised to one-character patterns. -/
def replaceChar (a : Char) (r : Option Char) : List Char → List Char
  | [] => []
  | c :: t =>
    (if c = a then (match r with | some d => [d] | none => []) else [c]) ++
      replaceChar a r t

/-- The chain `.str.replace(",", "").str.replace("(", "-").str.replace(")", "")`
from `app_web.load_and_transform`. -/
def pyReplaceAll (s : List Char) : List Char :=
  replaceChar ')' none (replaceChar '(' (some '-') (replaceChar ',' none s))

/-- Value of a digit run, `none` on a non-digit. -/
def digitsAcc : List Char → Nat → Option Nat
  | [], acc => some acc
  | c :: t, acc =>
    if c.isDigit then digitsAcc t (acc * 10 + (c.toNat - ('0').toNat)) else none

/-- Value of a nonempty digit run. -/
def digitsVal (cs : List Char) : Option Nat :=
  if cs.isEmpty then none else digitsAcc cs 0

/-- Split a character list at its first dot, if any. -/
def splitAtDot : List Char → List Char × Option (List Char)
  | [] => ([], none)
  | c :: t =>
    if c = '.' then ([], some t)
    else
      let p := splitAtDot t
      (c :: p.1, p.2)

/-- Strip leading and trailing spaces. -/
def trimSpaces (s : List Char) : List Char :=
  ((s.dropWhile (fun c => c = ' ')).reverse.dropWhile (fun c => c = ' ')).reverse

/-- Parse an unsigned decimal numeral (`"1234"`, `"12.5"`, `".5"`, `"12."`). -/
def parseUnsigned (cs : List Char) : Option ℚ :=
  match splitAtDot cs with
  | (w, none) => (digitsVal w).map (fun n => (n : ℚ))
  | (w, some f) =>
    if w.isEmpty && f.isEmpty then none
    else
      match (if w.isEmpty then some 0 else digitsVal w),
            (if f.isEmpty then some 0 else digitsVal f) with
      | some wn, some fn => some ((wn : ℚ) + (fn : ℚ) / ((10 : ℚ) ^ f.length))
      | _, _ => none

/-- Numeric parsing of one string as `pd.to_numeric` does for plain decimal
numerals: surrounding whitespace stripped, optional sign, digits with an
optional fractional part; anything else fails. -/
def parseNum (s : String) : Option ℚ :=
  match trimSpaces s.data with
  | [] => none
  | c :: t =>
    if c = '-' then (parseUnsigned t).map (fun q => -q)
    else if c = '+' then parseUnsigned t
    else parseUnsigned (c :: t)

/-- `pd.to_numeric(x, errors=...)` on one cell: with `errorsCoerce = true` a
parse failure becomes NaN, otherwise it raises `ValueError`. -/
def toNumericVal (errorsCoerce : Bool) : Val → Except PyError Val
  | .null => .ok .null
  | .num q => .ok (.num q)
  | .inf s => .ok (.inf s)
  | .str s =>
    match parseNum s with
    | some q => .ok (.num q)
    | none => if errorsCoerce then .ok .null else .error .value

/-- The `.str.replace` chain as a Series operation: applied to string cells;
NaN passes through; a non-string cell becomes NaN under the `.str` accessor. -/
def strReplaceChain : Val → Val
  | .str s => .str ⟨pyReplaceAll s.data⟩
  | .num _ => .null
  | .inf _ => .null
  | .null => .null

/-- One cell of `app_web`'s coercion: replace chain, then coercing `to_numeric`. -/
def appCoerceCell (v : Val) : Except PyError Val := toNumericVal true (strReplaceChain v)

/-- The (always-succeeding) result of `appCoerceCell`. -/
def appCoerceCellT : Val → Val
  | .str s =>
    match parseNum ⟨pyReplaceAll s.data⟩ with
    | some q => .num q
    | none => .null
  | .num _ => .null
  | .inf _ => .null
  | .null => .null

/-- One cell of `finquery_engine`'s coercion: bare coercing `to_numeric`. -/
def engineCoerceCell (v : Val) : Except PyError Val := toNumericVal true v

/-- The (always-succeeding) result of `engineCoerceCell`. -/
def engineCoerceCellT : Val → Val
  | .str s =>
    match parseNum s with
    | some q => .num q
    | none => .null
  | .num q => .num q
  | .inf s => .inf s
  | .null => .null

/-- `List.mapM` specialised to `Except PyError`, written structurally. -/
def mapME {α β : Type} (f : α → Except PyError β) : List α → Except PyError (List β)
  | [] => .ok []
  | a :: t =>
    match f a, mapME f t with
    | .ok b, .ok bs => .ok (b :: bs)
    | .error e, _ => .error e
    | .ok _, .error e => .error e

/-- One column of `app_web`'s coercion loop: the `"Year"` column is skipped,
every other column goes through the replace chain and `to_numeric`. -/
def appCoerceColumn (c : String × List Val) : Except PyError (String × List Val) :=
  if c.1 = "Year" then .ok c
  else
    match mapME appCoerceCell c.2 with
    | .ok vs => .ok (c.1, vs)
    | .error e => .error e

/-- The (always-succeeding) result of `appCoerceColumn`. -/
def appCoerceColumnT (c : String × List Val) : String × List Val :=
  if c.1 = "Year" then c else (c.1, c.2.map appCoerceCellT)

/-- The numeric-conversion loop of `app_web.load_and_transform`. -/
def appCoerceFrame (f : Frame) : Except PyError Frame :=
  match mapME appCoerceColumn f.cols with
  | .ok cols => .ok ⟨cols⟩
  | .error e => .error e

/-- One column of `finquery_engine`'s coercion loop (`df.columns[1:]`). -/
def engineCoerceColumn (c : String × List Val) : Except PyError (String × List Val) :=
  match mapME engineCoerceCell c.2 with
  | .ok vs => .ok (c.1, vs)
  | .error e => .error e

/-- The numeric-conversion loop of `FinQueryEngine.__init__`: every column
after the first (positionally) is converted. -/
def engineCoerceFrame (f : Frame) : Except PyError Frame :=
  match f.cols with
  | [] => .ok ⟨[]⟩
  | c0 :: rest =>
    match mapME engineCoerceColumn rest with
    | .ok cols => .ok ⟨c0 :: cols⟩
    | .error e => .error e

/-- A cell is missing (NaN). -/
def isNullB : Val → Bool
  | .null => true
  | _ => false

/-- A column is entirely missing (the `how="all"` test of `dropna`). -/
def allEmptyB (vs : List Val) : Bool := vs.all isNullB

/-- `df.dropna(axis=1, how="all")`: drop the columns whose every cell is NaN. -/
def dropEmptyCols (f : Frame) : Frame :=
  ⟨f.cols.filter (fun c => !(allEmptyB c.2))⟩

/-- The number of column headers containing a hyphen
(`sum(1 for c in df.columns if "-" in str(c))`). -/
def dateLikeCount (f : Frame) : Nat :=
  (headersOf f).countP (fun c => substrB "-" c)

/-- Column name obtained from an index label after the transpose; index labels
are strings under the `dtype=str` read, the other cases are placeholders for
pandas' stringification of non-string labels. -/
def nameOf : Val → String
  | .str s => s
  | .num _ => "num"
  | .inf _ => "inf"
  | .null => "nan"

/-- The metric columns produced by `df.set_index(first).T`: the r-th index
label names a column whose cells are the r-th entries of the remaining
original columns. -/
def metricColsFrom (rest : List (String × List Val)) : Nat → List Val → List (String × List Val)
  | _, [] => []
  | i, v :: t =>
    (nameOf v, rest.map (fun p => p.2.getD i Val.null)) :: metricColsFrom rest (i + 1) t

/-- `df.set_index(df.columns[0]).T.reset_index()` followed by renaming the
`index` column to `Year`: the former header row (minus its first cell) becomes
the `Year` column, the former first column's values become the column names. -/
def transposeSetIndex (f : Frame) : Frame :=
  match f.cols with
  | [] => ⟨[]⟩
  | (_, idx) :: rest =>
    ⟨("Year", rest.map (fun p => Val.str p.1)) :: metricColsFrom rest 0 idx⟩

/-- `df.rename(columns={first_col: "Year"})` on the first column. -/
def renameFirst (f : Frame) : Frame :=
  match f.cols with
  | [] => ⟨[]⟩
  | (_, v) :: rest => ⟨("Year", v) :: rest⟩

/-- `app_web.load_and_transform`, starting from the outcome of `pd.read_csv`
(a read/parse failure propagates: the function installs no handler).  With at
least two date-like headers the frame is pruned of all-empty columns and
transposed (pandas raises `KeyError` if the pruning removed the remembered
first column); otherwise the first column is renamed to `Year` when no column
bears that name.  Finally every non-`Year` column is coerced to numbers. -/
def loadAndTransform (input : Except PyError Frame) : Except PyError Frame :=
  match input with
  | .error e => .error e
  | .ok df =>
    match df.cols with
    | [] => .error .index
    | (firstCol, _) :: _ =>
      if 2 ≤ dateLikeCount df then
        match (dropEmptyCols df).cols with
        | [] => .error .key
        | (c0, _) :: _ =>
          if c0 = firstCol then appCoerceFrame (transposeSetIndex (dropEmptyCols df))
          else .error .key
      else
        if (headersOf df).contains "Year" then appCoerceFrame df
        else appCoerceFrame (renameFirst df)

/-- The body of `FinQueryEngine.__init__`'s `try` block after the read: the
frame is transposed unconditionally, the index column renamed to `Year`, and
every column but the first converted with bare `pd.to_numeric`. -/
def engineTransform (df : Frame) : Except PyError Frame :=
  match df.cols with
  | [] => .error .index
  | _ :: _ => engineCoerceFrame (transposeSetIndex df)

/-- The state of a `FinQueryEngine` object: `df` is absent when the load
failed (the constructor's `except` clause swallows the exception). -/
structure Engine where
  df : Option Frame
deriving DecidableEq

/-- `FinQueryEngine.__init__`: any exception raised while reading or
transforming is caught and only printed, so the object is always constructed;
on failure no `df` attribute is set. -/
def finqueryInit (input : Except PyError Frame) : Engine :=
  match input with
  | .error _ => ⟨none⟩
  | .ok raw =>
    match engineTransform raw with
    | .ok t => ⟨some t⟩
    | .error _ => ⟨none⟩

/-- The match test of `FinQueryEngine._find_col`: `keyword.lower() in col.lower()`. -/
def matchesKw (kw col : String) : Bool := substrB (lowerStr kw) (lowerStr col)

/-- The loop of `FinQueryEngine._find_col` over `self.df.columns`. -/
def findColAux (kw : String) : List (String × List Val) → Option String
  | [] => none
  | c :: rest => if matchesKw kw c.1 then some c.1 else findColAux kw rest

/-- `FinQueryEngine._find_col`: first column whose name contains the keyword
case-insensitively, `None` when no column does. -/
def findCol (f : Frame) (kw : String) : Option String := findColAux kw f.cols

/-- `df[[n1, n2, ...]]`: column projection by name, `KeyError` on a missing name. -/
def selectCols (f : Frame) (names : List String) : Except PyError Frame :=
  if names.all (fun n => (headersOf f).contains n) then
    .ok ⟨names.map (fun n => (n, getColVals f n))⟩
  else .error .key

/-- `df[name] = vs`: overwrite the column of that name, else append it. -/
def setCol (f : Frame) (name : String) (vs : List Val) : Frame :=
  if (headersOf f).contains name then
    ⟨f.cols.map (fun c => if c.1 = name then (name, vs) else c)⟩
  else ⟨f.cols ++ [(name, vs)]⟩

/-- `Series.fillna(method="pad")` with running carry: a NaN cell is replaced
by the most recent non-NaN cell; leading NaNs (carry still NaN) stay NaN. -/
def padFillFrom (prev : Val) : List Val → List Val
  | [] => []
  | v :: t =>
    match v with
    | .null => prev :: padFillFrom prev t
    | w => w :: padFillFrom w t

/-- Forward-filling of a whole column, as `pct_change`'s default
`fill_method="pad"` performs before differencing. -/
def padFillList (vs : List Val) : List Val := padFillFrom .null vs

/-- One step of `Series.pct_change` on the padded series, (prev, cur):
`cur / prev - 1` under float semantics — NaN when either cell is NaN (or is
not numeric, which a loaded table cannot produce), `±inf` when the previous
value is zero and the current is not, NaN for `0 / 0`. -/
def pctStep : Val → Val → Val
  | .num b, .num a =>
    if b = 0 then (if a = 0 then .null else .inf (decide (0 < a)))
    else .num (a / b - 1)
  | _, _ => .null

/-- `Series.pct_change()` with its default `fill_method="pad"`: the column is
forward-filled, then each position holds the fractional change from the
previous padded value; position 0 has no prior element and is NaN. -/
def pctChangeList (vs : List Val) : List Val :=
  let data := padFillList vs
  (List.range data.length).map
    (fun i => if i = 0 then Val.null
              else pctStep (data.getD (i - 1) .null) (data.getD i .null))

/-- Multiplication of a cell by 100 (`... * 100`); NaN stays NaN and signed
infinity keeps its sign. -/
def times100 : Val → Val
  | .num q => .num (q * 100)
  | .inf s => .inf s
  | .str _ => .null
  | .null => .null

/-- `df[col].pct_change() * 100`. -/
def pctTimes100 (vs : List Val) : List Val := (pctChangeList vs).map times100

/-- An ASCII single-quote character, as a string. -/
def sq : String := ⟨[Char.ofNat 39]⟩

/-- The literal message `"❌ No column related to <display> found."` with the
display name quoted, as returned by `FinQueryEngine.query`. -/
def noColMsg (display : String) : String :=
  "❌ No column related to " ++ sq ++ display ++ sq ++ " found."

/-- The literal fallback message of `FinQueryEngine.query`. -/
def notUnderstoodMsg : String := "❌ Sorry, I couldn’t understand that query."

/-- What a query evaluates to: a message string or a DataFrame. -/
inductive QueryResult where
  | msg (s : String)
  | frame (f : Frame)
deriving DecidableEq

/-- The body of `FinQueryEngine.query` after `q = q.lower()`: the if/elif
keyword ladder.  In each keyword branch `_find_col` reads `self.df`, which
raises `AttributeError` when the constructor's load failed. -/
def queryLower (edf : Option Frame) (q : String) : Except PyError QueryResult :=
  if substrB "revenue" q then
    match edf with
    | none => .error .attribute
    | some t =>
      match findCol t "revenue" with
      | none => .ok (.msg (noColMsg "Revenue"))
      | some col =>
        if substrB "growth" q then
          match selectCols t ["Year", col] with
          | .ok p => .ok (.frame (setCol p "Revenue Growth (%)" (pctTimes100 (getColVals p col))))
          | .error e => .error e
        else
          match selectCols t ["Year", col] with
          | .ok p => .ok (.frame p)
          | .error e => .error e
  else if substrB "income" q then
    match edf with
    | none => .error .attribute
    | some t =>
      match findCol t "income" with
      | none => .ok (.msg (noColMsg "Income"))
      | some col =>
        match selectCols t ["Year", col] with
        | .ok p => .ok (.frame p)
        | .error e => .error e
  else if substrB "asset" q then
    match edf with
    | none => .error .attribute
    | some t =>
      match findCol t "asset" with
      | none => .ok (.msg (noColMsg "Assets"))
      | some col =>
        match selectCols t ["Year", col] with
        | .ok p => .ok (.frame p)
        | .error e => .error e
  else if substrB "liabilit" q then
    match edf with
    | none => .error .attribute
    | some t =>
      match findCol t "liabilit" with
      | none => .ok (.msg (noColMsg "Liabilities"))
      | some col =>
        match selectCols t ["Year", col] with
        | .ok p => .ok (.frame p)
        | .error e => .error e
  else if substrB "cash" q then
    match edf with
    | none => .error .attribute
    | some t =>
      match findCol t "cash" with
      | none => .ok (.msg (noColMsg "Cash"))
      | some col =>
        match selectCols t ["Year", col] with
        | .ok p => .ok (.frame p)
        | .error e => .error e
  else .ok (.msg notUnderstoodMsg)

/-- `FinQueryEngine.query` on the engine's `df` attribute (present only when
the load succeeded): lowercases the question and runs the keyword ladder. -/
def queryE (edf : Option Frame) (q : String) : Except PyError QueryResult :=
  queryLower edf (lowerStr q)

/-- The query intents of the specification's closed variant. -/
inductive Intent where
  | growthSeries (kw : String)
  | metricSeries (kw : String)
  | unrecognized
deriving DecidableEq

/-- The fixed trigger substrings, in the specification's priority order. -/
def specTriggers : List String := ["revenue", "income", "asset", "liabilit", "cash"]

/-- The specification's decision list, following its words: the first trigger
substring found in priority order determines the intent; `"revenue"` carries a
`"growth"` sub-check; no trigger means `Unrecognized`. -/
def specIntentOf (q : String) : Intent :=
  match specTriggers.find? (fun t => substrB t q) with
  | none => .unrecognized
  | some t =>
    if t == "revenue" && substrB "growth" q then .growthSeries t else .metricSeries t

/-- The question contains at least one of the five trigger substrings. -/
def hasTrigger (q : String) : Bool := specTriggers.any (fun t => substrB t q)

/-- The capitalised display name each keyword uses in its `"No column"` message. -/
def displayOf (kw : String) : String :=
  if kw == "revenue" then "Revenue"
  else if kw == "income" then "Income"
  else if kw == "asset" then "Assets"
  else if kw == "liabilit" then "Liabilities"
  else "Cash"

/-- Executing one intent against the engine state: the column is resolved with
`_find_col` and the corresponding projection (plus the growth column for
`growthSeries`) or message is produced. -/
def execIntent (edf : Option Frame) : Intent → Except PyError QueryResult
  | .unrecognized => .ok (.msg notUnderstoodMsg)
  | .metricSeries kw =>
    match edf with
    | none => .error .attribute
    | some t =>
      match findCol t kw with
      | none => .ok (.msg (noColMsg (displayOf kw)))
      | some col =>
        match selectCols t ["Year", col] with
        | .ok p => .ok (.frame p)
        | .error e => .error e
  | .growthSeries kw =>
    match edf with
    | none => .error .attribute
    | some t =>
      match findCol t kw with
      | none => .ok (.msg (noColMsg (displayOf kw)))
      | some col =>
        match selectCols t ["Year", col] with
        | .ok p => .ok (.frame (setCol p "Revenue Growth (%)" (pctTimes100 (getColVals p col))))
        | .error e => .error e

/-- The (always-succeeding) result of `engineCoerceColumn`. -/
def engineCoerceColumnT (c : String × List Val) : String × List Val :=
  (c.1, c.2.map engineCoerceCellT)

/-- Sample loaded table: three periods of a single revenue-like metric. -/
def sampleRevenueT : Frame :=
  ⟨[("Year", [.str "2012", .str "2013", .str "2014"]),
    ("Total Revenue", [.num 100, .num 150, .num 90])]⟩

/-- Sample loaded table holding both a cash-like and a liability-like metric. -/
def cashLiabT : Frame :=
  ⟨[("Year", [.str "2012", .str "2013"]),
    ("Cash", [.num 5, .num 6]),
    ("Total Liabilities", [.num 7, .num 8])]⟩

/-- Raw table whose second metric row is entirely empty. -/
def blankMetricRaw : Frame :=
  ⟨[("Metric", [.str "Revenue", .str "Blank"]),
    ("2012-12-31", [.str "1", .null]),
    ("2013-12-31", [.str "2", .null])]⟩

/-- What loading `blankMetricRaw` produces. -/
def blankMetricRes : Frame :=
  ⟨[("Year", [.str "2012-12-31", .str "2013-12-31"]),
    ("Revenue", [.num 1, .num 2]),
    ("Blank", [.null, .null])]⟩

/-- Raw table with two date-like headers and one entirely empty column. -/
def emptyColRaw : Frame :=
  ⟨[("Metric", [.str "A"]), ("2012-31", [.str "1"]), ("2013-31", [.str "2"]),
    ("junk", [.null])]⟩

/-- Raw transposed table used to instantiate the orientation theorem. -/
def smallTransposedRaw : Frame :=
  ⟨[("M", [.str "A"]), ("a-1", [.str "1"]), ("b-2", [.str "2"])]⟩

/-- Raw periods-in-rows table used to instantiate the orientation theorem. -/
def smallPlainRaw : Frame := ⟨[("p", [.str "x"])]⟩

/-- A one-column loaded table used to instantiate query totality. -/
def yearOnlyT : Frame := ⟨[("Year", [])]⟩

/-- A loaded table with no revenue-like column. -/
def otherOnlyT : Frame := ⟨[("Other", [])]⟩

/-- The loaded table of the column-resolution example. -/
def resolutionT : Frame := ⟨[("Year", []), ("Total Revenue", [])]⟩

/-- The growth field as the specification words it, read on the raw column
values with no forward-filling: `(value_i - value_pred) / value_pred * 100`
per record after the first, null for the first record and wherever an operand
is missing or the formula is undefined.  Used only to compare the
specification's sentence against the program's `pct_change`-based column. -/
def specGrowthList (vs : List Val) : List Val :=
  (List.range vs.length).map
    (fun i =>
      if i = 0 then Val.null
      else
        match vs.getD (i - 1) .null, vs.getD i .null with
        | .num b, .num a => if b = 0 then .null else .num ((a - b) / b * 100)
        | _, _ => .null)

/-- A loaded revenue table whose value column has a missing middle cell. -/
def nullGapT : Frame :=
  ⟨[("Year", [.str "2012", .str "2013", .str "2014"]),
    ("Total Revenue", [.num 100, .null, .num 150])]⟩

/-- Raw periods-in-rows table that has a column literally named `period`. -/
def periodColRaw : Frame := ⟨[("p", [.str "x"]), ("period", [.str "y"])]⟩

/-- Raw table with two date-like headers whose first column is all-empty. -/
def emptyFirstRaw : Frame :=
  ⟨[("M", [.null]), ("a-1", [.str "1"]), ("b-2", [.str "2"])]⟩

instance {ε α : Type} [DecidableEq ε] [DecidableEq α] : DecidableEq (Except ε α)
  | .error e, .error f =>
    if h : e = f then .isTrue (by rw [h]) else .isFalse (by simp [h])
  | .error _, .ok _ => .isFalse (by simp)
  | .ok _, .error _ => .isFalse (by simp)
  | .ok a, .ok b =>
    if h : a = b then .isTrue (by rw [h]) else .isFalse (by simp [h])

/-! Helper lemmas: totality and shape of the coercion passes. -/

theorem appCoerceCell_eq (v : Val) : appCoerceCell v = .ok (appCoerceCellT v) := by
  cases v with
  | str s =>
    simp only [appCoerceCell, strReplaceChain, toNumericVal, appCoerceCellT]
    cases parseNum (⟨pyReplaceAll s.data⟩ : String) <;> rfl
  | num q => rfl
  | inf s => rfl
  | null => rfl

theorem mapME_appCoerceCell (vs : List Val) :
    mapME appCoerceCell vs = .ok (vs.map appCoerceCellT) := by
  induction vs with
  | nil => rfl
  | cons v t ih => simp [mapME, appCoerceCell_eq v, ih]

theorem appCoerceColumn_eq (c : String × List Val) :
    appCoerceColumn c = .ok (appCoerceColumnT c) := by
  by_cases h : c.1 = "Year" <;>
    simp [appCoerceColumn, appCoerceColumnT, h, mapME_appCoerceCell]

theorem appCoerceFrame_eq (f : Frame) :
    appCoerceFrame f = .ok ⟨f.cols.map appCoerceColumnT⟩ := by
  have h : ∀ l : List (String × List Val),
      mapME appCoerceColumn l = .ok (l.map appCoerceColumnT) := by
    intro l
    induction l with
    | nil => rfl
    | cons c t ih => simp [mapME, appCoerceColumn_eq c, ih]
  simp [appCoerceFrame, h]

theorem engineCoerceCell_eq (v : Val) :
    engineCoerceCell v = .ok (engineCoerceCellT v) := by
  cases v with
  | str s =>
    simp only [engineCoerceCell, toNumericVal, engineCoerceCellT]
    cases parseNum s <;> rfl
  | num q => rfl
  | inf s => rfl
  | null => rfl

theorem engineCoerceColumn_eq (c : String × List Val) :
    engineCoerceColumn c = .ok (engineCoerceColumnT c) := by
  have h : mapME engineCoerceCell c.2 = .ok (c.2.map engineCoerceCellT) := by
    induction c.2 with
    | nil => rfl
    | cons v t ih => simp [mapME, engineCoerceCell_eq v, ih]
  simp [engineCoerceColumn, engineCoerceColumnT, h]

theorem engineCoerceFrame_eq (c0 : String × List Val) (rest : List (String × List Val)) :
    engineCoerceFrame ⟨c0 :: rest⟩ = .ok ⟨c0 :: rest.map engineCoerceColumnT⟩ := by
  have h : ∀ l : List (String × List Val),
      mapME engineCoerceColumn l = .ok (l.map engineCoerceColumnT) := by
    intro l
    induction l with
    | nil => rfl
    | cons c t ih => simp [mapME, engineCoerceColumn_eq c, ih]
  simp [engineCoerceFrame, h]

theorem appCoerceColumnT_fst (c : String × List Val) : (appCoerceColumnT c).1 = c.1 := by
  by_cases h : c.1 = "Year" <;> simp [appCoerceColumnT, h]

theorem headersOf_mapColumnT (l : List (String × List Val)) :
    headersOf ⟨l.map appCoerceColumnT⟩ = l.map Prod.fst := by
  simp only [headersOf, List.map_map]
  exact List.map_congr_left (fun c _ => appCoerceColumnT_fst c)

theorem metricColsFrom_map_fst (rest : List (String × List Val)) :
    ∀ (l : List Val) (i : Nat), (metricColsFrom rest i l).map Prod.fst = l.map nameOf := by
  intro l
  induction l with
  | nil => intro i; rfl
  | cons v t ih => intro i; simp [metricColsFrom, ih]

/-! Helper lemmas: column lookup. -/

theorem findColAux_spec (kw : String) :
    ∀ (l : List (String × List Val)) (c : String), findColAux kw l = some c →
      ∃ pre post, l.map Prod.fst = pre ++ c :: post ∧ matchesKw kw c = true ∧
        ∀ x ∈ pre, matchesKw kw x = false := by
  intro l
  induction l with
  | nil => intro c h; simp [findColAux] at h
  | cons a t ih =>
    intro c h
    by_cases hm : matchesKw kw a.1 = true
    · rw [findColAux, if_pos hm, Option.some_inj] at h
      subst h
      exact ⟨[], t.map Prod.fst, by simp, hm, by simp⟩
    · have hm' : matchesKw kw a.1 = false := by simpa using hm
      rw [findColAux, if_neg hm] at h
      obtain ⟨pre, post, h1, h2, h3⟩ := ih c h
      refine ⟨a.1 :: pre, post, by simp [h1], h2, ?_⟩
      intro x hx
      rcases List.mem_cons.mp hx with hx | hx
      · rw [hx]; exact hm'
      · exact h3 x hx

theorem findColAux_none (kw : String) :
    ∀ l : List (String × List Val),
      (∀ x ∈ l.map Prod.fst, matchesKw kw x = false) → findColAux kw l = none := by
  intro l
  induction l with
  | nil => intro _; rfl
  | cons a t ih =>
    intro h
    have ha : matchesKw kw a.1 = false := h a.1 (by simp)
    rw [findColAux, if_neg (by simp [ha])]
    exact ih (fun x hx => h x (by simp [hx]))

theorem findColAux_mem (kw : String) :
    ∀ (l : List (String × List Val)) (c : String), findColAux kw l = some c →
      c ∈ l.map Prod.fst := by
  intro l c h
  obtain ⟨pre, post, h1, _, _⟩ := findColAux_spec kw l c h
  rw [h1]
  simp

theorem selectYearCol_ok (t : Frame) (col : String)
    (hY : (headersOf t).contains "Year" = true) (hc : col ∈ headersOf t) :
    selectCols t ["Year", col] =
      .ok ⟨[("Year", getColVals t "Year"), (col, getColVals t col)]⟩ := by
  rw [selectCols, if_pos]
  · rfl
  · simp only [List.all_cons, List.all_nil, Bool.and_true, Bool.and_eq_true]
    exact ⟨hY, by simpa using hc⟩

/-! Helper lemma: the keyword ladder is the specification's decision list. -/

theorem queryLower_eq (edf : Option Frame) (ql : String) :
    queryLower edf ql = execIntent edf (specIntentOf ql) := by
  cases h1 : substrB "revenue" ql <;> cases h2 : substrB "income" ql <;>
    cases h3 : substrB "asset" ql <;> cases h4 : substrB "liabilit" ql <;>
      cases h5 : substrB "cash" ql <;> cases h6 : substrB "growth" ql <;>
        simp [queryLower, specIntentOf, specTriggers, execIntent, displayOf,
          List.find?, h1, h2, h3, h4, h5, h6]

/-! Helper lemmas: the normalizer on tables detected as transposed. -/

theorem Frame.ext_cols {a b : Frame} (h : a.cols = b.cols) : a = b := by
  cases a; cases b; cases h; rfl

theorem dropEmptyCols_cons (raw : Frame) (c0 : String) (v0 : List Val)
    (rest : List (String × List Val)) (hc : raw.cols = (c0, v0) :: rest)
    (he : allEmptyB v0 = false) :
    (dropEmptyCols raw).cols = (c0, v0) :: rest.filter (fun p => !(allEmptyB p.2)) := by
  simp [dropEmptyCols, hc, List.filter_cons, he]

theorem transpose_shape (c0 : String) (v0 : List Val) (l : List (String × List Val)) :
    (transposeSetIndex ⟨(c0, v0) :: l⟩).cols =
      ("Year", l.map (fun p => Val.str p.1)) :: metricColsFrom l 0 v0 := rfl

theorem getColVals_year_head (ys : List Val) (ms : List (String × List Val)) :
    getColVals ⟨(("Year", ys) :: ms).map appCoerceColumnT⟩ "Year" = ys := by
  have h : appCoerceColumnT ("Year", ys) = ("Year", ys) := by simp [appCoerceColumnT]
  simp [getColVals, List.map_cons, h, List.find?_cons_of_pos]

theorem load_transposed (raw : Frame) (c0 : String) (v0 : List Val)
    (rest : List (String × List Val)) (hc : raw.cols = (c0, v0) :: rest)
    (hd : 2 ≤ dateLikeCount raw) (he : allEmptyB v0 = false) :
    loadAndTransform (.ok raw) =
      .ok ⟨((("Year", (rest.filter (fun p => !(allEmptyB p.2))).map (fun p => Val.str p.1)) ::
        metricColsFrom (rest.filter (fun p => !(allEmptyB p.2))) 0 v0)).map appCoerceColumnT⟩ := by
  rcases raw with ⟨l⟩
  simp only at hc
  subst hc
  have hdrop := dropEmptyCols_cons ⟨(c0, v0) :: rest⟩ c0 v0 rest rfl he
  simp only [loadAndTransform, if_pos hd, hdrop, if_pos rfl]
  rw [show dropEmptyCols ⟨(c0, v0) :: rest⟩ =
        ⟨(c0, v0) :: rest.filter (fun p => !(allEmptyB p.2))⟩ from Frame.ext_cols hdrop]
  rw [transposeSetIndex]
  exact appCoerceFrame_eq _

/-! Helper lemmas: every successfully loaded table carries a `Year` column. -/

theorem load_ok_has_year (x : Except PyError Frame) (t : Frame)
    (h : loadAndTransform x = .ok t) : (headersOf t).contains "Year" = true := by
  cases x with
  | error e => simp [loadAndTransform] at h
  | ok df =>
    rw [loadAndTransform] at h
    split at h
    · exact absurd h (by simp)
    · rename_i firstCol v0 rest hc
      split at h
      · split at h
        · exact absurd h (by simp)
        · rename_i hd c0 w drest hdc
          split at h
          · rw [appCoerceFrame_eq] at h
            have ht : t = ⟨(transposeSetIndex (dropEmptyCols df)).cols.map appCoerceColumnT⟩ := by
              exact (Except.ok.inj h).symm
            subst ht
            rw [headersOf_mapColumnT]
            rw [show transposeSetIndex (dropEmptyCols df) =
                  transposeSetIndex ⟨(c0, w) :: drest⟩ from congrArg _ (Frame.ext_cols hdc)]
            rw [transpose_shape]
            simp
          · exact absurd h (by simp)
      · split at h
        · rename_i hY
          rw [appCoerceFrame_eq] at h
          have ht : t = ⟨df.cols.map appCoerceColumnT⟩ := (Except.ok.inj h).symm
          subst ht
          rw [headersOf_mapColumnT]
          exact hY
        · rw [appCoerceFrame_eq] at h
          have ht : t = ⟨(renameFirst df).cols.map appCoerceColumnT⟩ := (Except.ok.inj h).symm
          subst ht
          rw [headersOf_mapColumnT]
          rw [show (renameFirst df).cols = ("Year", v0) :: rest from by simp [renameFirst, hc]]
          simp

theorem engineInit_has_year (x : Except PyError Frame) (t : Frame)
    (h : (finqueryInit x).df = some t) : (headersOf t).contains "Year" = true := by
  cases x with
  | error e => simp [finqueryInit] at h
  | ok raw =>
    rw [finqueryInit] at h
    split at h
    · rename_i ht het
      rw [engineTransform] at het
      split at het
      · exact absurd het (by simp)
      · rename_i c0 rest hc
        rcases c0 with ⟨n0, v0⟩
        rw [show transposeSetIndex raw =
              ⟨("Year", rest.map fun p => Val.str p.1) :: metricColsFrom rest 0 v0⟩ from
              (congrArg _ (Frame.ext_cols hc : raw = ⟨(n0, v0) :: rest⟩))] at het
        rw [engineCoerceFrame_eq] at het
        have hts : ht = ⟨("Year", rest.map fun p => Val.str p.1) ::
            (metricColsFrom rest 0 v0).map engineCoerceColumnT⟩ := (Except.ok.inj het).symm
        simp only [Option.some_inj] at h
        subst h
        subst hts
        simp [headersOf]
    · simp at h

/-! Helper lemmas: shape of the growth column. -/

theorem padFillFrom_length : ∀ (p : Val) (vs : List Val),
    (padFillFrom p vs).length = vs.length := by
  intro p vs
  induction vs generalizing p with
  | nil => rfl
  | cons v t ih => cases v <;> simp [padFillFrom, ih]

theorem padFillList_length (vs : List Val) : (padFillList vs).length = vs.length :=
  padFillFrom_length .null vs

theorem pctTimes100_length (vs : List Val) : (pctTimes100 vs).length = vs.length := by
  simp [pctTimes100, pctChangeList, padFillList_length]

theorem pctTimes100_head (vs : List Val) : (pctTimes100 vs).getD 0 .null = .null := by
  cases vs with
  | nil => rfl
  | cons v t =>
    simp [pctTimes100, pctChangeList, padFillList_length, List.range_succ_eq_map, times100]

theorem pctTimes100_getD (vs : List Val) (i : Nat) (h0 : 0 < i) (h : i < vs.length) :
    (pctTimes100 vs).getD i .null =
      times100 (pctStep ((padFillList vs).getD (i - 1) .null)
        ((padFillList vs).getD i .null)) := by
  have hne : i ≠ 0 := Nat.pos_iff_ne_zero.mp h0
  have hlen : i < (padFillList vs).length := by
    rw [padFillList_length]
    exact h
  simp [pctTimes100, pctChangeList, List.getD, List.getElem?_map, List.getElem?_range,
    hlen, hne]

/-- C1: Intent classification is a fixed decision list evaluated on the
lowercased question text: for every engine state and question string, `query`
behaves exactly as the first trigger substring found in the priority order
revenue, income, asset, liabilit, cash prescribes (with the growth sub-check
selecting a growth series under revenue, and no combination of triggers), and
a question containing none of the triggers yields the not-understood result. -/
theorem query_matches_spec_decision_list (edf : Option Frame) (q : String) :
    queryE edf q = execIntent edf (specIntentOf (lowerStr q)) :=
  queryLower_eq edf (lowerStr q)

/-- C2: On a successfully loaded table — one produced by either loader, all of
which carry a `Year` column — `query` never raises: every question returns an
ordinary result value, so a caller can issue queries in a loop indefinitely. -/
theorem query_total_on_loaded_table :
    (∀ (t : Frame) (q : String), (headersOf t).contains "Year" = true →
        ∃ r, queryE (some t) q = .ok r)
  ∧ (∀ (x : Except PyError Frame) (t : Frame), loadAndTransform x = .ok t →
        (headersOf t).contains "Year" = true)
  ∧ (∀ (x : Except PyError Frame) (t : Frame), (finqueryInit x).df = some t →
        (headersOf t).contains "Year" = true) := by
  refine ⟨?_, load_ok_has_year, engineInit_has_year⟩
  intro t q hY
  rw [queryE, queryLower_eq]
  cases hi : specIntentOf (lowerStr q) with
  | unrecognized => exact ⟨_, rfl⟩
  | metricSeries kw =>
    simp only [execIntent]
    cases hf : findCol t kw with
    | none => exact ⟨_, rfl⟩
    | some col =>
      simp only [selectYearCol_ok t col hY (findColAux_mem kw t.cols col hf)]
      exact ⟨_, rfl⟩
  | growthSeries kw =>
    simp only [execIntent]
    cases hf : findCol t kw with
    | none => exact ⟨_, rfl⟩
    | some col =>
      simp only [selectYearCol_ok t col hY (findColAux_mem kw t.cols col hf)]
      exact ⟨_, rfl⟩

/-- Witness for C2: a concrete loaded table and question yield a result. -/
theorem query_total_on_loaded_table_witness :
    ∃ r, queryE (some yearOnlyT) "hello there" = .ok r :=
  query_total_on_loaded_table.1 yearOnlyT "hello there" (by decide)

/-- C3: Column resolution is case-insensitive substring containment with
first-match-wins by column declaration order; when no column name contains
the keyword the no-match sentinel is returned; keyword `revenue` resolves to
a column named `Total Revenue` (never exact-token equality). -/
theorem find_col_first_substring_match :
    (∀ (f : Frame) (kw c : String), findCol f kw = some c →
        ∃ pre post, headersOf f = pre ++ c :: post ∧ matchesKw kw c = true ∧
          ∀ x ∈ pre, matchesKw kw x = false)
  ∧ (∀ (f : Frame) (kw : String),
        (∀ c ∈ headersOf f, matchesKw kw c = false) → findCol f kw = none)
  ∧ findCol resolutionT "revenue" = some "Total Revenue" := by
  refine ⟨?_, ?_, rfl⟩
  · intro f kw c h
    exact findColAux_spec kw f.cols c h
  · intro f kw h
    exact findColAux_none kw f.cols h

/-- Witness for C3: the characterisation applied to concrete tables. -/
theorem find_col_first_substring_match_witness :
    (∃ pre post, headersOf resolutionT = pre ++ "Total Revenue" :: post ∧
        matchesKw "revenue" "Total Revenue" = true ∧
        ∀ x ∈ pre, matchesKw "revenue" x = false)
  ∧ findCol otherOnlyT "revenue" = none :=
  ⟨find_col_first_substring_match.1 resolutionT "revenue" "Total Revenue" rfl,
   find_col_first_substring_match.2.1 otherOnlyT "revenue" (by decide)⟩

/-- C6: Numeric coercion strips thousands separators, negates parenthesized
numerals, then parses; `"(1,234)"` coerces to `-1234.0`, `"5,000"` to
`5000.0`, and empty or non-numeric text to null; applied cell-by-cell over a
whole frame it always succeeds, never aborting the load. -/
theorem numeric_coercion_examples_and_totality :
    appCoerceCell (.str "(1,234)") = .ok (.num (-1234))
  ∧ appCoerceCell (.str "5,000") = .ok (.num 5000)
  ∧ appCoerceCell (.str "") = .ok .null
  ∧ appCoerceCell (.str "n/a") = .ok .null
  ∧ (∀ v, appCoerceCell v = .ok (appCoerceCellT v))
  ∧ (∀ f, appCoerceFrame f = .ok ⟨f.cols.map appCoerceColumnT⟩) :=
  ⟨rfl, rfl, rfl, rfl, appCoerceCell_eq, appCoerceFrame_eq⟩

/-- C10: When the constructor's load fails the engine object still exists
with no table; thereafter any question containing a trigger substring makes
`query` raise `AttributeError`, while a question with no trigger still
returns the not-understood string. -/
theorem partial_init_observable (q : String) :
    (hasTrigger (lowerStr q) = true → queryE none q = .error .attribute)
  ∧ (hasTrigger (lowerStr q) = false → queryE none q = .ok (.msg notUnderstoodMsg))
  ∧ (∀ x : PyError, finqueryInit (.error x) = ⟨none⟩) := by
  refine ⟨?_, ?_, fun x => rfl⟩
  · intro h
    rw [queryE, queryLower_eq]
    cases hi : specIntentOf (lowerStr q) with
    | unrecognized =>
      exfalso
      rw [specIntentOf] at hi
      cases hf : specTriggers.find? (fun tr => substrB tr (lowerStr q)) with
      | none =>
        rw [List.find?_eq_none] at hf
        rw [hasTrigger, List.any_eq_true] at h
        obtain ⟨tr, htr, hsub⟩ := h
        exact absurd hsub (by simpa using hf tr htr)
      | some tr =>
        rw [hf] at hi
        simp only at hi
        split at hi <;> simp at hi
    | metricSeries kw => simp [execIntent]
    | growthSeries kw => simp [execIntent]
  · intro h
    rw [queryE, queryLower_eq]
    have hu : specIntentOf (lowerStr q) = .unrecognized := by
      rw [specIntentOf]
      cases hf : specTriggers.find? (fun tr => substrB tr (lowerStr q)) with
      | none => rfl
      | some tr =>
        exfalso
        have hp := List.find?_some hf
        have hm := List.mem_of_find?_eq_some hf
        have : specTriggers.any (fun tr => substrB tr (lowerStr q)) = true :=
          List.any_eq_true.mpr ⟨tr, hm, hp⟩
        rw [hasTrigger] at h
        rw [h] at this
        exact Bool.false_ne_true this
    rw [hu]
    rfl

/-- Witness for C10: the two behaviours at concrete questions, and a failed
load producing an engine with no table. -/
theorem partial_init_observable_witness :
    queryE none "revenue" = .error .attribute
  ∧ queryE none "xyz" = .ok (.msg notUnderstoodMsg)
  ∧ finqueryInit (.error .load) = ⟨none⟩ :=
  ⟨(partial_init_observable "revenue").1 (by decide),
   (partial_init_observable "xyz").2.1 (by decide),
   (partial_init_observable "xyz").2.2 .load⟩

/-- C4 counterexample: on a table holding both a cash-like and a
liability-like column, the question `"cash and liabilities"` returns the
liability projection, not the cash one — the `"liabilit"` trigger precedes
`"cash"` in the ladder, so the claim that it resolves to the cash-related
column only is false. -/
theorem cash_and_liabilities_counterexample :
    queryE (some cashLiabT) "cash and liabilities" =
      .ok (.frame ⟨[("Year", [.str "2012", .str "2013"]),
                    ("Total Liabilities", [.num 7, .num 8])]⟩)
  ∧ queryE (some cashLiabT) "cash and liabilities" ≠
      .ok (.frame ⟨[("Year", [.str "2012", .str "2013"]),
                    ("Cash", [.num 5, .num 6])]⟩) := by
  have h1 : queryE (some cashLiabT) "cash and liabilities" =
      .ok (.frame ⟨[("Year", [.str "2012", .str "2013"]),
                    ("Total Liabilities", [.num 7, .num 8])]⟩) := rfl
  refine ⟨h1, ?_⟩
  intro h
  have h2 := h1.symm.trans h
  simp at h2

/-- C4 amended: the question `"cash and liabilities"` contains both the
`"cash"` and `"liabilit"` triggers; under the source priority order
(`"liabilit"` before `"cash"`) it resolves to the liability-related column
only, for every engine state. -/
theorem cash_and_liabilities_amended (edf : Option Frame) :
    queryE edf "cash and liabilities" = execIntent edf (.metricSeries "liabilit") := rfl

/-- C5 counterexample: the source runs `df[col].pct_change()` with pandas'
default `fill_method="pad"`, which forward-fills missing cells before
differencing.  On the value column 100, NaN, 150 — reachable, since
`errors="coerce"` turns unparseable cells into NaN — the program's growth
column is null, 0, 50, whereas the claimed formula
`(value_i - value_pred) / value_pred * 100` on the raw values (spelled out by
`specGrowthList`) is undefined (null) at both later positions.  So the
universally quantified claim is false. -/
theorem growth_formula_counterexample :
    queryE (some nullGapT) "revenue growth" = .ok (.frame
      ⟨[("Year", [.str "2012", .str "2013", .str "2014"]),
        ("Total Revenue", [.num 100, .null, .num 150]),
        ("Revenue Growth (%)", [.null, .num 0, .num 50])]⟩)
  ∧ specGrowthList [Val.num 100, Val.null, Val.num 150] = [.null, .null, .null]
  ∧ pctTimes100 [Val.num 100, Val.null, Val.num 150] ≠
      specGrowthList [Val.num 100, Val.null, Val.num 150] := by
  have hr : List.range 3 = [0, 1, 2] := rfl
  have hp : pctTimes100 [Val.num 100, Val.null, Val.num 150] =
      [.null, .num 0, .num 50] := by
    simp [pctTimes100, pctChangeList, padFillList, padFillFrom, hr, pctStep, times100]
    norm_num
  have hs : specGrowthList [Val.num 100, Val.null, Val.num 150] =
      [.null, .null, .null] := rfl
  refine ⟨?_, hs, ?_⟩
  · calc queryE (some nullGapT) "revenue growth"
        = .ok (.frame
            ⟨[("Year", [.str "2012", .str "2013", .str "2014"]),
              ("Total Revenue", [.num 100, .null, .num 150]),
              ("Revenue Growth (%)",
                pctTimes100 [Val.num 100, Val.null, Val.num 150])]⟩) := rfl
      _ = _ := by rw [hp]
  · rw [hp, hs]
    simp

/-- C5 amended: the growth-series query returns the (period, value)
projection extended with a growth field computed as `pct_change() * 100`
under pandas' default forward-filling of missing values: the growth list has
the column's length, its first entry is null (never a division error), every
later entry is determined by the padded previous and current cells; on
numeric padded cells with nonzero previous value the growth is the formula
`(cur - prev) / prev * 100`, a zero previous value yields signed infinity
(null for 0/0), a missing padded operand yields null; on the all-numeric
values 100, 150, 90 the growth entries are null, 50, -40. -/
theorem growth_series_amended :
    (∀ (t : Frame) (q col : String),
        substrB "revenue" (lowerStr q) = true →
        substrB "growth" (lowerStr q) = true →
        findCol t "revenue" = some col →
        (headersOf t).contains "Year" = true →
        queryE (some t) q = .ok (.frame
          (setCol ⟨[("Year", getColVals t "Year"), (col, getColVals t col)]⟩
            "Revenue Growth (%)"
            (pctTimes100 (getColVals
              ⟨[("Year", getColVals t "Year"), (col, getColVals t col)]⟩ col)))))
  ∧ (∀ vs : List Val, (pctTimes100 vs).length = vs.length ∧
        (pctTimes100 vs).getD 0 .null = .null)
  ∧ (∀ (vs : List Val) (i : Nat), 0 < i → i < vs.length →
        (pctTimes100 vs).getD i .null =
          times100 (pctStep ((padFillList vs).getD (i - 1) .null)
            ((padFillList vs).getD i .null)))
  ∧ (∀ a b : ℚ, b ≠ 0 →
        times100 (pctStep (.num b) (.num a)) = .num ((a - b) / b * 100))
  ∧ (∀ a : ℚ, a ≠ 0 → pctStep (.num 0) (.num a) = .inf (decide (0 < a)))
  ∧ pctStep (.num 0) (.num 0) = .null
  ∧ (∀ v : Val, pctStep .null v = .null ∧ pctStep v .null = .null)
  ∧ pctTimes100 [.num 100, .num 150, .num 90] = [.null, .num 50, .num (-40)] := by
  refine ⟨?_, fun vs => ⟨pctTimes100_length vs, pctTimes100_head vs⟩,
    pctTimes100_getD, ?_, ?_, rfl, ?_, ?_⟩
  · intro t q col h1 h2 hf hY
    rw [queryE, queryLower_eq]
    have hfind : List.find? (fun tr => substrB tr (lowerStr q)) specTriggers =
        some "revenue" := by
      rw [specTriggers]
      exact List.find?_cons_of_pos _ h1
    have hi : specIntentOf (lowerStr q) = .growthSeries "revenue" := by
      rw [specIntentOf, hfind]
      simp [h2]
    rw [hi]
    simp only [execIntent, hf,
      selectYearCol_ok t col hY (findColAux_mem "revenue" t.cols col hf)]
  · intro a b hb
    simp only [pctStep, if_neg hb, times100, Val.num.injEq]
    field_simp
  · intro a ha
    simp [pctStep, ha]
  · intro v
    exact ⟨rfl, by cases v <;> rfl⟩
  · have hr : List.range 3 = [0, 1, 2] := rfl
    simp [pctTimes100, pctChangeList, padFillList, padFillFrom, hr, pctStep, times100]
    norm_num

/-- Witness for C5: the growth query on a concrete revenue table, the padded
growth relation and the formula and infinity cases at concrete values. -/
theorem growth_series_amended_witness :
    queryE (some sampleRevenueT) "revenue growth" = .ok (.frame
      (setCol ⟨[("Year", getColVals sampleRevenueT "Year"),
                ("Total Revenue", getColVals sampleRevenueT "Total Revenue")]⟩
        "Revenue Growth (%)"
        (pctTimes100 (getColVals
          ⟨[("Year", getColVals sampleRevenueT "Year"),
            ("Total Revenue", getColVals sampleRevenueT "Total Revenue")]⟩
          "Total Revenue"))))
  ∧ (pctTimes100 [Val.num 100, Val.num 150]).getD 1 .null =
      times100 (pctStep ((padFillList [Val.num 100, Val.num 150]).getD 0 .null)
        ((padFillList [Val.num 100, Val.num 150]).getD 1 .null))
  ∧ times100 (pctStep (.num 4) (.num 6)) = .num ((6 - 4) / 4 * 100)
  ∧ pctStep (.num 0) (.num 3) = .inf (decide ((0 : ℚ) < 3)) :=
  ⟨growth_series_amended.1 sampleRevenueT "revenue growth" "Total Revenue"
      (by decide) (by decide) rfl (by decide),
   growth_series_amended.2.2.1 [Val.num 100, Val.num 150] 1 (by decide) (by decide),
   growth_series_amended.2.2.2.1 6 4 (by simp),
   growth_series_amended.2.2.2.2.1 3 (by simp)⟩

/-- C7 counterexample, refuting the claim at two concrete inputs.  First, a
raw table with two date-like headers and an additional all-empty column: after
normalization the period column omits the pruned header, so it does not equal
the original header row minus its first cell.  Second, a raw periods-in-rows
table containing a column literally named `period`: the loader still renames
the first column to the period role (it checks only for the literal name
`Year`), contradicting the claim that the rename happens only if no column is
already named period/Year. -/
theorem transpose_period_counterexample :
    (loadAndTransform (.ok emptyColRaw) =
        .ok ⟨[("Year", [.str "2012-31", .str "2013-31"]), ("A", [.num 1, .num 2])]⟩
      ∧ (headersOf emptyColRaw).tail.map Val.str ≠ [.str "2012-31", .str "2013-31"])
  ∧ (loadAndTransform (.ok periodColRaw) =
        .ok ⟨[("Year", [.str "x"]), ("period", [.null])]⟩
      ∧ headersOf periodColRaw = ["p", "period"]) :=
  ⟨⟨rfl, by decide⟩, ⟨rfl, rfl⟩⟩

/-- C7 amended: with at least two date-like headers the loader transposes
when the first column survives pruning — the period column equals the
original header row minus its first cell and minus pruned all-empty columns,
and the metric-name columns are named by the original first column's values;
if the first column is itself entirely empty, pruning removes it and the
load fails with a `KeyError` instead of returning a table; with fewer than
two date-like headers the table keeps its periods-in-rows shape, the first
column being renamed to the period role exactly when no column is literally
named `Year` (a column named `period` does not suppress the rename). -/
theorem normalize_orientation_amended (raw : Frame) (c0 : String) (v0 : List Val)
    (rest : List (String × List Val)) (hc : raw.cols = (c0, v0) :: rest) :
    (2 ≤ dateLikeCount raw → allEmptyB v0 = false →
        ∃ t, loadAndTransform (.ok raw) = .ok t ∧
          getColVals t "Year" = (headersOf (dropEmptyCols raw)).tail.map Val.str ∧
          headersOf t = "Year" :: v0.map nameOf)
  ∧ (2 ≤ dateLikeCount raw → allEmptyB v0 = true → (∀ p ∈ rest, p.1 ≠ c0) →
        loadAndTransform (.ok raw) = .error .key)
  ∧ (¬ 2 ≤ dateLikeCount raw →
        ∃ t, loadAndTransform (.ok raw) = .ok t ∧
          headersOf t = (if (headersOf raw).contains "Year" then headersOf raw
                         else "Year" :: rest.map Prod.fst)) := by
  rcases raw with ⟨l⟩
  simp only at hc
  subst hc
  refine ⟨?_, ?_, ?_⟩
  · intro hd he
    refine ⟨_, load_transposed ⟨(c0, v0) :: rest⟩ c0 v0 rest rfl hd he, ?_, ?_⟩
    · rw [getColVals_year_head]
      have hh : headersOf (dropEmptyCols ⟨(c0, v0) :: rest⟩) =
          c0 :: (rest.filter (fun p => !(allEmptyB p.2))).map Prod.fst := by
        simp [headersOf, dropEmptyCols_cons ⟨(c0, v0) :: rest⟩ c0 v0 rest rfl he]
      rw [hh]
      simp [List.map_map]
    · rw [headersOf_mapColumnT]
      simp [headersOf, metricColsFrom_map_fst]
  · intro hd he hnodup
    have hdrop : (dropEmptyCols ⟨(c0, v0) :: rest⟩).cols =
        rest.filter (fun p => !(allEmptyB p.2)) := by
      simp [dropEmptyCols, List.filter_cons, he]
    cases hf : rest.filter (fun p => !(allEmptyB p.2)) with
    | nil => simp only [loadAndTransform, if_pos hd, hdrop, hf]
    | cons d dtail =>
      have hdmem : d ∈ rest := List.mem_of_mem_filter (hf ▸ List.mem_cons_self d dtail)
      have hd1 : d.1 ≠ c0 := hnodup d hdmem
      rcases d with ⟨dn, dv⟩
      simp only [loadAndTransform, if_pos hd, hdrop, hf]
      rw [if_neg hd1]
  · intro hd
    by_cases hY : (headersOf ⟨(c0, v0) :: rest⟩).contains "Year" = true
    · refine ⟨⟨((c0, v0) :: rest).map appCoerceColumnT⟩, ?_, ?_⟩
      · simp only [loadAndTransform, if_neg hd]
        rw [if_pos hY]
        exact appCoerceFrame_eq _
      · rw [headersOf_mapColumnT, if_pos hY]
        rfl
    · refine ⟨⟨(("Year", v0) :: rest).map appCoerceColumnT⟩, ?_, ?_⟩
      · simp only [loadAndTransform, if_neg hd]
        rw [if_neg hY]
        rw [show renameFirst ⟨(c0, v0) :: rest⟩ = ⟨("Year", v0) :: rest⟩ from rfl]
        exact appCoerceFrame_eq _
      · rw [headersOf_mapColumnT, if_neg hY]
        simp [headersOf]

/-- Witness for C7: the amended statement instantiated at a concrete
transposed table, a concrete all-empty-first-column table, and a concrete
periods-in-rows table. -/
theorem normalize_orientation_amended_witness :
    (∃ t, loadAndTransform (.ok smallTransposedRaw) = .ok t ∧
        getColVals t "Year" = (headersOf (dropEmptyCols smallTransposedRaw)).tail.map Val.str ∧
        headersOf t = "Year" :: [Val.str "A"].map nameOf)
  ∧ loadAndTransform (.ok emptyFirstRaw) = .error .key
  ∧ (∃ t, loadAndTransform (.ok smallPlainRaw) = .ok t ∧
        headersOf t = (if (headersOf smallPlainRaw).contains "Year" then headersOf smallPlainRaw
                       else "Year" :: ([] : List (String × List Val)).map Prod.fst)) :=
  ⟨(normalize_orientation_amended smallTransposedRaw "M" [.str "A"]
      [("a-1", [.str "1"]), ("b-2", [.str "2"])] rfl).1 (by decide) (by decide),
   (normalize_orientation_amended emptyFirstRaw "M" [.null]
      [("a-1", [.str "1"]), ("b-2", [.str "2"])] rfl).2.1 (by decide) (by decide) (by decide),
   (normalize_orientation_amended smallPlainRaw "p" [.str "x"] [] rfl).2.2 (by decide)⟩

/-- C8 counterexample: on a failed read the engine constructor completes
normally and yields an object with no table — no `LoadError` reaches the
caller, so the load is not surfaced as the claim states. -/
theorem engine_init_swallows_load_failure :
    finqueryInit (.error .load) = ⟨none⟩ := rfl

/-- C8 amended: `load_and_transform` installs no handler — a read/parse
failure propagates unchanged to its caller — while the engine constructor
catches every load failure and constructs a table-less engine, reporting the
error only as printed output. -/
theorem load_propagates_engine_catches :
    (∀ e : PyError, loadAndTransform (.error e) = .error e)
  ∧ (∀ e : PyError, finqueryInit (.error e) = ⟨none⟩) :=
  ⟨fun _ => rfl, fun _ => rfl⟩

/-- C9 counterexample: a raw table with an entirely empty metric row loads
into a normalized table that still contains an all-empty metric column
(`Blank`), so the pruning does not remove all-empty columns of the
transposed table. -/
theorem pruning_counterexample :
    loadAndTransform (.ok blankMetricRaw) = .ok blankMetricRes
  ∧ ("Blank", [Val.null, Val.null]) ∈ blankMetricRes.cols
  ∧ allEmptyB [Val.null, Val.null] = true :=
  ⟨rfl, by decide, rfl⟩

/-- C9 amended: pruning happens on the raw table before the transpose —
exactly the all-empty raw columns are dropped, so the normalized period
column lists exactly the non-empty raw data columns; all-empty metric
columns arising from empty raw rows survive. -/
theorem pruning_amended_drops_empty_raw_columns (raw : Frame) (c0 : String)
    (v0 : List Val) (rest : List (String × List Val))
    (hc : raw.cols = (c0, v0) :: rest) (hd : 2 ≤ dateLikeCount raw)
    (he : allEmptyB v0 = false) :
    ∃ t, loadAndTransform (.ok raw) = .ok t ∧
      getColVals t "Year" =
        (rest.filter (fun p => !(allEmptyB p.2))).map (fun p => Val.str p.1) :=
  ⟨_, load_transposed raw c0 v0 rest hc hd he, getColVals_year_head _ _⟩

/-- Witness for C9: the amended statement instantiated at the blank-metric
raw table. -/
theorem pruning_amended_witness :
    ∃ t, loadAndTransform (.ok blankMetricRaw) = .ok t ∧
      getColVals t "Year" =
        ([("2012-12-31", [Val.str "1", Val.null]),
          ("2013-12-31", [Val.str "2", Val.null])].filter
            (fun p => !(allEmptyB p.2))).map (fun p => Val.str p.1) :=
  pruning_amended_drops_empty_raw_columns blankMetricRaw "Metric"
    [.str "Revenue", .str "Blank"]
    [("2012-12-31", [.str "1", .null]), ("2013-12-31", [.str "2", .null])]
    rfl (by decide) (by decide)

end FinQuery
